import Mathlib

/-!
Shallow embedding of the safetensors.hpp binding layer (src/lib.rs and
src/conversion.rs) together with the parts of the underlying safetensors
format engine that the binding calls.  Rust byte strings and byte buffers
are modelled as lists of byte values; Rust panics (out-of-bounds indexing)
are a distinguished outcome, separate from returned errors.
-/

/-- Byte strings: Rust `String` / `&[u8]` values are modelled as lists of
byte values. -/
abbrev Str := List Nat

/-- The ffi (C++-bridged) dtype enumeration, in source declaration order
(src/lib.rs, the `ffi::Dtype` enum). -/
inductive Dtype where
  | BOOL
  | F4
  | F6_E2M3
  | F6_E3M2
  | U8
  | I8
  | F8_E5M2
  | F8_E4M3
  | F8_E8M0
  | I16
  | U16
  | F16
  | BF16
  | I32
  | U32
  | F32
  | F64
  | I64
  | U64
deriving DecidableEq, Fintype

/-- The canonical Rust dtype enumeration (`safetensors::Dtype`), restricted to
the variants the binding covers. -/
inductive RDtype where
  | BOOL
  | F4
  | F6_E2M3
  | F6_E3M2
  | U8
  | I8
  | F8_E5M2
  | F8_E4M3
  | F8_E8M0
  | I16
  | U16
  | F16
  | BF16
  | I32
  | U32
  | F32
  | F64
  | I64
  | U64
deriving DecidableEq, Fintype

/-- src/conversion.rs, `impl Into<Dtype> for RDtype` (the Rust → C++ switch). -/
def RDtype.intoD : RDtype → Dtype
  | .BOOL => .BOOL
  | .F4 => .F4
  | .F6_E2M3 => .F6_E2M3
  | .F6_E3M2 => .F6_E3M2
  | .U8 => .U8
  | .I8 => .I8
  | .F8_E5M2 => .F8_E5M2
  | .F8_E4M3 => .F8_E4M3
  | .F8_E8M0 => .F8_E8M0
  | .I16 => .I16
  | .U16 => .U16
  | .F16 => .F16
  | .BF16 => .BF16
  | .I32 => .I32
  | .U32 => .U32
  | .F32 => .F32
  | .F64 => .F64
  | .I64 => .I64
  | .U64 => .U64

/-- src/conversion.rs, `impl Into<RDtype> for Dtype` (the C++ → Rust switch). -/
def Dtype.intoR : Dtype → RDtype
  | .BOOL => .BOOL
  | .F4 => .F4
  | .F6_E2M3 => .F6_E2M3
  | .F6_E3M2 => .F6_E3M2
  | .U8 => .U8
  | .I8 => .I8
  | .F8_E5M2 => .F8_E5M2
  | .F8_E4M3 => .F8_E4M3
  | .F8_E8M0 => .F8_E8M0
  | .I16 => .I16
  | .U16 => .U16
  | .F16 => .F16
  | .BF16 => .BF16
  | .I32 => .I32
  | .U32 => .U32
  | .F32 => .F32
  | .F64 => .F64
  | .I64 => .I64
  | .U64 => .U64

/-- Position of an ffi dtype in its declaration order (src/lib.rs). -/
def Dtype.ordinal : Dtype → Nat
  | .BOOL => 0
  | .F4 => 1
  | .F6_E2M3 => 2
  | .F6_E3M2 => 3
  | .U8 => 4
  | .I8 => 5
  | .F8_E5M2 => 6
  | .F8_E4M3 => 7
  | .F8_E8M0 => 8
  | .I16 => 9
  | .U16 => 10
  | .F16 => 11
  | .BF16 => 12
  | .I32 => 13
  | .U32 => 14
  | .F32 => 15
  | .F64 => 16
  | .I64 => 17
  | .U64 => 18

/-- Modelled from the spec: the DtypeRegistry per-dtype bit width (spec 3 and
4.1); the table itself lives in the underlying safetensors crate, not under
src/. A BOOL occupies one stored byte. -/
def RDtype.bits : RDtype → Nat
  | .BOOL => 8
  | .F4 => 4
  | .F6_E2M3 => 6
  | .F6_E3M2 => 6
  | .U8 => 8
  | .I8 => 8
  | .F8_E5M2 => 8
  | .F8_E4M3 => 8
  | .F8_E8M0 => 8
  | .I16 => 16
  | .U16 => 16
  | .F16 => 16
  | .BF16 => 16
  | .I32 => 32
  | .U32 => 32
  | .F32 => 32
  | .F64 => 64
  | .I64 => 64
  | .U64 => 64

/-- Byte alignment of a stored element: one byte for every type at most one
byte wide, otherwise the element's width in bytes. -/
def Dtype.alignment (d : Dtype) : Nat := max 1 (d.intoR.bits / 8)

/-- ffi TensorView (src/lib.rs): the borrowed byte span is modelled as the
byte list itself; `data_len` is the separate length field of the struct. -/
structure TensorView where
  shape : List Nat
  dtype : Dtype
  data : Str
  data_len : Nat
deriving DecidableEq

/-- Error taxonomy, with the error kinds named by the spec (4.2, 4.3, 6). -/
inductive SErr where
  | DuplicateName
  | InvalidShapeForDtype
  | InvalidOffset
  | OffsetOverlapOrGap
  | TensorSizeMismatch
  | InvalidShape
  | BufferTooShort
  | MalformedHeader
  | UnknownDtype
  | MissingField
  | InvalidUtf8
deriving DecidableEq

deriving instance DecidableEq for Except

/-- Result of running a binding-layer operation: a Rust panic (out-of-bounds
indexing), a returned error, or success. -/
inductive Outcome (α : Type) where
  | panicked
  | err (e : SErr)
  | ok (a : α)
deriving DecidableEq

/-- True exactly on the `ok` outcome. -/
def Outcome.isOk {α : Type} : Outcome α → Bool
  | .ok _ => true
  | _ => false

/-- `std::collections::HashMap::insert`: replaces the value at an existing
key. The map is modelled as an association list with unique keys; a Rust
hash map's iteration order is unspecified and is not part of this model. -/
def insertH {α : Type} : List (Str × α) → Str → α → List (Str × α)
  | [], k, v => [(k, v)]
  | (k', v') :: t, k, v => if k' = k then (k, v) :: t else (k', v') :: insertH t k v

/-- `shape[shape.len() - 1] *= 2` from src/lib.rs `prepare`: undefined (a Rust
index-out-of-bounds panic) on an empty shape. -/
def lastMul2 : List Nat → Option (List Nat)
  | [] => none
  | [x] => some [x * 2]
  | x :: xs => (lastMul2 xs).map (fun r => x :: r)

/-- `shape[n - 1] /= 2` from src/lib.rs `deserialize`: undefined (a Rust
index-out-of-bounds panic) on an empty shape. -/
def lastDiv2 : List Nat → Option (List Nat)
  | [] => none
  | [x] => some [x / 2]
  | x :: xs => (lastDiv2 xs).map (fun r => x :: r)

/-- Loop body accumulator of src/lib.rs `prepare`: walks the input pairs,
computes the doubled F4 shape (panicking on a rank-0 F4 shape), then inserts
the ORIGINAL TensorView into the hash map — the adjusted shape is dropped,
exactly as in the source. -/
def prepareAux : List (Str × TensorView) → List (Str × TensorView) →
    Option (List (Str × TensorView))
  | acc, [] => some acc
  | acc, (k, v) :: t =>
    match (if v.dtype.intoR = RDtype.F4 then lastMul2 v.shape else some v.shape) with
    | none => none
    | some _ => prepareAux (insertH acc k v) t

/-- src/lib.rs `prepare`: builds the name-keyed hash map handed to the crate
serializer. `none` models the Rust panic on a rank-0 F4 shape. -/
def prepare (l : List (Str × TensorView)) : Option (List (Str × TensorView)) :=
  prepareAux [] l

/-- src/lib.rs `convert_to_hashmap_string`: an empty metadata list becomes
`None`; otherwise the pairs are collected into a hash map. -/
def convert_to_hashmap_string (dict : List (Str × Str)) : Option (List (Str × Str)) :=
  if dict.isEmpty then none
  else some (dict.foldl (fun acc kv => insertH acc kv.1 kv.2) [])

/-- A tensor's header entry (spec 3: dtype, shape, data_offsets). -/
structure TensorInfo where
  dtype : RDtype
  shape : List Nat
  data_offsets : Nat × Nat
deriving DecidableEq

/-- Modelled from the spec: the parsed header (spec 3) — ordered tensor
entries plus the optional metadata mapping; its concrete type lives in the
safetensors crate, not under src/. -/
structure HeaderMeta where
  metadata : Option (List (Str × Str))
  tensors : List (Str × TensorInfo)
deriving DecidableEq

/-- A dtype narrower than one byte (spec 3: sub-byte packing). -/
def RDtype.subByte (d : RDtype) : Bool := d.bits < 8

/-- Last entry of a shape is even; false on a rank-0 shape, whose
last-dimension adjustment is not invertible. -/
def lastEven : List Nat → Bool
  | [] => false
  | [x] => x % 2 == 0
  | _ :: xs => lastEven xs

/-- Modelled from the spec: stored_bytes(shape, dtype) =
ceil(prod(shape) * bits(dtype) / 8), with a sub-byte dtype additionally
requiring the last-dimension-adjusted logical shape to be invertible (even
last dimension) — otherwise a format error (spec 3). The computation lives
in the safetensors crate, not under src/. -/
def storedBytes (shape : List Nat) (d : RDtype) : Option Nat :=
  if d.subByte ∧ lastEven shape = false then none
  else some ((shape.prod * d.bits + 7) / 8)

/-- Keys of an association list are pairwise distinct. -/
def keysUnique {α : Type} : List (Str × α) → Bool
  | [] => true
  | (k, _) :: t => t.all (fun kv => kv.1 != k) && keysUnique t

/-- Insert an offset pair into a list sorted by begin offset. -/
def insertByBegin (p : Nat × Nat) : List (Nat × Nat) → List (Nat × Nat)
  | [] => [p]
  | q :: t => if p.1 ≤ q.1 then p :: q :: t else q :: insertByBegin p t

/-- Insertion sort of offset pairs by begin offset. -/
def sortByBegin : List (Nat × Nat) → List (Nat × Nat)
  | [] => []
  | p :: t => insertByBegin p (sortByBegin t)

/-- Walk a sorted offset list checking each begin equals the running cursor;
returns the final cursor. -/
def chainCheck : Nat → List (Nat × Nat) → Option Nat
  | a, [] => some a
  | a, (b, e) :: t => if b = a then chainCheck e t else none

/-- The offset ranges, sorted by begin, exactly tile [0, total). -/
def tilesExactly (offs : List (Nat × Nat)) (total : Nat) : Bool :=
  match chainCheck 0 (sortByBegin offs) with
  | some e => e == total
  | none => false

/-- Modelled from the spec: LayoutValidator (spec 4.3) — the spec-3
invariants, in order, short-circuiting on the first failure. Invariant 5
(non-negative shape entries) holds trivially over Nat. The validator lives in
the safetensors crate, not under src/. -/
def validateLayout (tensors : List (Str × TensorInfo)) (dataLen : Nat) : Option SErr :=
  if !keysUnique tensors then some SErr.DuplicateName
  else if !tensors.all (fun kv => kv.2.data_offsets.1 ≤ kv.2.data_offsets.2) then
    some SErr.InvalidOffset
  else if !tilesExactly (tensors.map (fun kv => kv.2.data_offsets)) dataLen then
    some SErr.OffsetOverlapOrGap
  else if !tensors.all (fun kv =>
      storedBytes kv.2.shape kv.2.dtype == some (kv.2.data_offsets.2 - kv.2.data_offsets.1)) then
    some SErr.TensorSizeMismatch
  else none

/-- Modelled from the spec: SerializationEngine step 2 (spec 4.4) — compute
each tensor's byte length by the dtype-aware formula and assign contiguous,
monotonically increasing offsets in iteration order, starting from `off`.
Lives in the safetensors crate, not under src/. -/
def buildEntries (off : Nat) : List (Str × TensorView) → Except SErr (List (Str × TensorInfo))
  | [] => .ok []
  | (k, v) :: t =>
    match storedBytes v.shape v.dtype.intoR with
    | none => .error SErr.InvalidShapeForDtype
    | some n =>
      (buildEntries (off + n) t).map (fun rest => (k, ⟨v.dtype.intoR, v.shape, (off, off + n)⟩) :: rest)

/-- Modelled from the spec: SerializationEngine steps 1-3 (spec 4.4) —
duplicate-name rejection, offset assignment, header construction. Lives in
the safetensors crate, not under src/. -/
def buildHeader (tensors : List (Str × TensorView)) (meta : Option (List (Str × Str))) :
    Except SErr HeaderMeta :=
  if !keysUnique tensors then .error SErr.DuplicateName
  else (buildEntries 0 tensors).map (fun es => ⟨meta, es⟩)

/-- ASCII bytes of the header key "dtype". -/
def kwDtype : Str := [100, 116, 121, 112, 101]

/-- ASCII bytes of the header key "shape". -/
def kwShape : Str := [115, 104, 97, 112, 101]

/-- ASCII bytes of the header key "data_offsets". -/
def kwOffsets : Str := [100, 97, 116, 97, 95, 111, 102, 102, 115, 101, 116, 115]

/-- ASCII bytes of the reserved metadata key. -/
def kwMetadata : Str := [95, 95, 109, 101, 116, 97, 100, 97, 116, 97, 95, 95]

/-- Modelled from the spec: DtypeRegistry name_of — the textual dtype name
written into the header (spec 4.1); lives in the safetensors crate. -/
def RDtype.nameBytes : RDtype → Str
  | .BOOL => [66, 79, 79, 76]
  | .F4 => [70, 52]
  | .F6_E2M3 => [70, 54, 95, 69, 50, 77, 51]
  | .F6_E3M2 => [70, 54, 95, 69, 51, 77, 50]
  | .U8 => [85, 56]
  | .I8 => [73, 56]
  | .F8_E5M2 => [70, 56, 95, 69, 53, 77, 50]
  | .F8_E4M3 => [70, 56, 95, 69, 52, 77, 51]
  | .F8_E8M0 => [70, 56, 95, 69, 56, 77, 48]
  | .I16 => [73, 49, 54]
  | .U16 => [85, 49, 54]
  | .F16 => [70, 49, 54]
  | .BF16 => [66, 70, 49, 54]
  | .I32 => [73, 51, 50]
  | .U32 => [85, 51, 50]
  | .F32 => [70, 51, 50]
  | .F64 => [70, 54, 52]
  | .I64 => [73, 54, 52]
  | .U64 => [85, 54, 52]

/-- All dtypes, for the registry's name lookup. -/
def allRDtypes : List RDtype :=
  [.BOOL, .F4, .F6_E2M3, .F6_E3M2, .U8, .I8, .F8_E5M2, .F8_E4M3, .F8_E8M0,
   .I16, .U16, .F16, .BF16, .I32, .U32, .F32, .F64, .I64, .U64]

/-- Modelled from the spec: DtypeRegistry parse — inverse of name_of
(spec 4.1); lives in the safetensors crate. -/
def parseDtypeName (s : Str) : Option RDtype :=
  allRDtypes.find? (fun d => d.nameBytes == s)

/-- Decimal digit bytes of a number, most significant first; `fuel` bounds
the digit count (one digit is consumed per step). -/
def renderNatFuel : Nat → Nat → Str → Str
  | 0, _, acc => acc
  | fuel + 1, n, acc =>
    if n < 10 then (48 + n) :: acc
    else renderNatFuel fuel (n / 10) ((48 + n % 10) :: acc)

/-- Decimal ASCII rendering of a number. -/
def renderNat (n : Nat) : Str := renderNatFuel (n + 1) n []

/-- A JSON string literal: quote, raw bytes, quote. Escaping inside names is
JSON-library territory, out of scope for the format model. -/
def renderStr (s : Str) : Str := 34 :: s ++ [34]

/-- Join byte strings with comma separators. -/
def commaSep : List Str → Str
  | [] => []
  | [x] => x
  | x :: xs => x ++ 44 :: commaSep xs

/-- A JSON list of numbers, as in the header's shape field. -/
def renderShape (l : List Nat) : Str := 91 :: commaSep (l.map renderNat) ++ [93]

/-- The two-element data_offsets list. -/
def renderPairNat (p : Nat × Nat) : Str :=
  91 :: renderNat p.1 ++ 44 :: renderNat p.2 ++ [93]

/-- Modelled from the spec: a header tensor entry, with the fixed key order
dtype, shape, data_offsets (spec 4.2, 6). -/
def renderInfo (i : TensorInfo) : Str :=
  123 :: (renderStr kwDtype ++ 58 :: renderStr i.dtype.nameBytes
    ++ 44 :: renderStr kwShape ++ 58 :: renderShape i.shape
    ++ 44 :: renderStr kwOffsets ++ 58 :: renderPairNat i.data_offsets) ++ [125]

/-- The flat string-to-string metadata object. -/
def renderMetaMap (m : List (Str × Str)) : Str :=
  123 :: commaSep (m.map (fun kv => renderStr kv.1 ++ 58 :: renderStr kv.2)) ++ [125]

/-- Modelled from the spec: HeaderCodec encode (spec 4.2, 6) — tensor entries
in iteration order, then the optional metadata key. Lives in the safetensors
crate (via its JSON codec), not under src/. -/
def renderHeader (h : HeaderMeta) : Str :=
  let entries := h.tensors.map (fun kv => renderStr kv.1 ++ 58 :: renderInfo kv.2)
  let entries := match h.metadata with
    | none => entries
    | some m => entries ++ [renderStr kwMetadata ++ 58 :: renderMetaMap m]
  123 :: commaSep entries ++ [125]

/-- The 8-byte little-endian length field. -/
def u64le (n : Nat) : Str :=
  [n % 256, n / 256 % 256, n / 256 ^ 2 % 256, n / 256 ^ 3 % 256,
   n / 256 ^ 4 % 256, n / 256 ^ 5 % 256, n / 256 ^ 6 % 256, n / 256 ^ 7 % 256]

/-- Read the 8-byte little-endian length field, returning it and the rest. -/
def readU64le : Str → Option (Nat × Str)
  | b0 :: b1 :: b2 :: b3 :: b4 :: b5 :: b6 :: b7 :: rest =>
    some (b0 + 256 * (b1 + 256 * (b2 + 256 * (b3 + 256 * (b4 + 256 *
      (b5 + 256 * (b6 + 256 * b7)))))), rest)
  | _ => none

/-- Modelled from the spec: SerializationEngine (spec 4.4) — build the
header, emit length prefix ++ header bytes ++ concatenated data, and run the
validator as a self-check. Lives in the safetensors crate, not under src/. -/
def engineSerialize (tensors : List (Str × TensorView)) (meta : Option (List (Str × Str))) :
    Except SErr Str :=
  match buildHeader tensors meta with
  | .error e => .error e
  | .ok hdr =>
    let dataSeg := (tensors.map (fun kv => kv.2.data)).flatten
    match validateLayout hdr.tensors dataSeg.length with
    | some e => .error e
    | none =>
      let hb := renderHeader hdr
      .ok (u64le hb.length ++ hb ++ dataSeg)

/-- src/lib.rs `serialize`: prepare the hash map (possibly panicking), then
call the crate serializer with the converted metadata. -/
def serializeGlue (data : List (Str × TensorView)) (data_info : List (Str × Str)) :
    Outcome Str :=
  match prepare data with
  | none => .panicked
  | some tensors =>
    match engineSerialize tensors (convert_to_hashmap_string data_info) with
    | .error e => .err e
    | .ok out => .ok out

/-- Consume one expected byte. -/
def expectByte (b : Nat) : Str → Option Str
  | c :: rest => if c = b then some rest else none
  | _ => none

/-- Consume an expected byte sequence. -/
def expectBytesList : Str → Str → Option Str
  | [], s => some s
  | b :: t, s =>
    match expectByte b s with
    | none => none
    | some s => expectBytesList t s

/-- Take the bytes up to (not including) the next closing quote. -/
def takeUntilQuote : Str → Option (Str × Str)
  | [] => none
  | c :: rest =>
    if c = 34 then some ([], rest)
    else (takeUntilQuote rest).map (fun p => (c :: p.1, p.2))

/-- Parse a quoted string literal. -/
def parseQuoted (s : Str) : Option (Str × Str) :=
  match expectByte 34 s with
  | none => none
  | some s => takeUntilQuote s

/-- Accumulate decimal digit bytes. -/
def parseNatAux : Str → Nat → Nat × Str
  | c :: rest, acc =>
    if 48 ≤ c ∧ c ≤ 57 then parseNatAux rest (acc * 10 + (c - 48)) else (acc, c :: rest)
  | [], acc => (acc, [])

/-- Parse a decimal number (at least one digit). -/
def parseNum : Str → Option (Nat × Str)
  | c :: rest => if 48 ≤ c ∧ c ≤ 57 then some (parseNatAux rest (c - 48)) else none
  | [] => none

/-- Parse the remaining elements of a bracketed number list, after the first
element; each step consumes at least one byte, bounded by `fuel`. -/
def parseNumTail : Nat → Str → Option (List Nat × Str)
  | 0, _ => none
  | fuel + 1, s =>
    match s with
    | 93 :: rest => some ([], rest)
    | 44 :: rest =>
      match parseNum rest with
      | none => none
      | some (n, s) =>
        match parseNumTail fuel s with
        | none => none
        | some (t, s) => some (n :: t, s)
    | _ => none

/-- Parse a bracketed list of decimal numbers. -/
def parseNumList (s : Str) : Option (List Nat × Str) :=
  match expectByte 91 s with
  | none => none
  | some s =>
    match s with
    | 93 :: rest => some ([], rest)
    | _ =>
      match parseNum s with
      | none => none
      | some (n, s1) =>
        match parseNumTail (s1.length + 1) s1 with
        | none => none
        | some (t, s2) => some (n :: t, s2)

/-- Modelled from the spec: decoding one header tensor entry with the fixed
key order dtype, shape, data_offsets (spec 4.2, 6). -/
def parseInfo (s : Str) : Option (TensorInfo × Str) :=
  match expectByte 123 s with
  | none => none
  | some s =>
  match expectBytesList (renderStr kwDtype) s with
  | none => none
  | some s =>
  match expectByte 58 s with
  | none => none
  | some s =>
  match parseQuoted s with
  | none => none
  | some (dn, s) =>
  match parseDtypeName dn with
  | none => none
  | some dt =>
  match expectByte 44 s with
  | none => none
  | some s =>
  match expectBytesList (renderStr kwShape) s with
  | none => none
  | some s =>
  match expectByte 58 s with
  | none => none
  | some s =>
  match parseNumList s with
  | none => none
  | some (shape, s) =>
  match expectByte 44 s with
  | none => none
  | some s =>
  match expectBytesList (renderStr kwOffsets) s with
  | none => none
  | some s =>
  match expectByte 58 s with
  | none => none
  | some s =>
  match parseNumList s with
  | none => none
  | some (offs, s) =>
  match offs with
  | [a, b] =>
    match expectByte 125 s with
    | none => none
    | some s => some (⟨dt, shape, (a, b)⟩, s)
  | _ => none

/-- Parse the remaining pairs of the metadata object, after the first pair. -/
def parseMetaTail : Nat → Str → Option (List (Str × Str) × Str)
  | 0, _ => none
  | fuel + 1, s =>
    match s with
    | 125 :: rest => some ([], rest)
    | 44 :: rest =>
      match parseQuoted rest with
      | none => none
      | some (k, s) =>
        match expectByte 58 s with
        | none => none
        | some s =>
          match parseQuoted s with
          | none => none
          | some (v, s) =>
            match parseMetaTail fuel s with
            | none => none
            | some (t, s) => some ((k, v) :: t, s)
    | _ => none

/-- Parse the flat string-to-string metadata object. -/
def parseMetaMap (s : Str) : Option (List (Str × Str) × Str) :=
  match expectByte 123 s with
  | none => none
  | some s =>
    match s with
    | 125 :: rest => some ([], rest)
    | _ =>
      match parseQuoted s with
      | none => none
      | some (k, s) =>
        match expectByte 58 s with
        | none => none
        | some s =>
          match parseQuoted s with
          | none => none
          | some (v, s1) =>
            match parseMetaTail (s1.length + 1) s1 with
            | none => none
            | some (t, s2) => some ((k, v) :: t, s2)

/-- Parse one header entry: either the reserved metadata key or a named
tensor entry. -/
def parseOneEntry (s : Str) :
    Option ((Sum (Str × TensorInfo) (List (Str × Str))) × Str) :=
  match parseQuoted s with
  | none => none
  | some (name, s) =>
    match expectByte 58 s with
    | none => none
    | some s =>
      if name = kwMetadata then
        match parseMetaMap s with
        | none => none
        | some (m, s) => some (Sum.inr m, s)
      else
        match parseInfo s with
        | none => none
        | some (info, s) => some (Sum.inl (name, info), s)

/-- Parse the header entries up to the closing brace, accumulating tensor
entries in order and recording the metadata object when present. -/
def parseEntriesAux : Nat → Str → HeaderMeta → Option (HeaderMeta × Str)
  | 0, _, _ => none
  | fuel + 1, s, acc =>
    match parseOneEntry s with
    | none => none
    | some (e, s) =>
      let acc := match e with
        | Sum.inl kv => ⟨acc.metadata, acc.tensors ++ [kv]⟩
        | Sum.inr m => ⟨some m, acc.tensors⟩
      match s with
      | 125 :: rest => some (acc, rest)
      | 44 :: rest => parseEntriesAux fuel rest acc
      | _ => none

/-- Modelled from the spec: HeaderCodec decode (spec 4.2) — parse the
textual header, which must be consumed exactly. The JSON machinery lives in
the safetensors crate's codec, not under src/. -/
def parseHeaderBytes (s : Str) : Option HeaderMeta :=
  match expectByte 123 s with
  | none => none
  | some s =>
    match s with
    | [125] => some ⟨none, []⟩
    | _ =>
      match parseEntriesAux (s.length + 1) s ⟨none, []⟩ with
      | none => none
      | some (h, rest) => if rest = [] then some h else none

/-- A tensor view as returned by the crate deserializer, before the binding's
shape adjustment; its data length is the length of its byte span. -/
structure RTensor where
  shape : List Nat
  dtype : RDtype
  data : Str
deriving DecidableEq

/-- Modelled from the spec: DeserializationEngine steps 1-5 (spec 4.5)
without the binding layer's F4 adjustment: length prefix, header slice,
decode, validation, then borrowed spans. Lives in the safetensors crate, not
under src/. -/
def engineDeserialize (buffer : Str) : Except SErr (List (Str × RTensor)) :=
  if buffer.length < 8 then .error SErr.BufferTooShort
  else
    match readU64le buffer with
    | none => .error SErr.BufferTooShort
    | some (n, rest) =>
      if rest.length < n then .error SErr.BufferTooShort
      else
        let hb := rest.take n
        let dataSeg := rest.drop n
        match parseHeaderBytes hb with
        | none => .error SErr.MalformedHeader
        | some hdr =>
          match validateLayout hdr.tensors dataSeg.length with
          | some e => .error e
          | none => .ok (hdr.tensors.map (fun kv =>
              (kv.1, ⟨kv.2.shape, kv.2.dtype,
                (dataSeg.take kv.2.data_offsets.2).drop kv.2.data_offsets.1⟩)))

/-- Loop body of src/lib.rs `deserialize`: halve the last shape entry of an
F4 tensor (panicking — `none` — on a rank-0 shape), and convert the dtype
back across the bridge. -/
def deserItem (kv : Str × RTensor) : Option (Str × TensorView) :=
  match (if kv.2.dtype = RDtype.F4 then lastDiv2 kv.2.shape else some kv.2.shape) with
  | none => none
  | some shape => some (kv.1, ⟨shape, kv.2.dtype.intoD, kv.2.data, kv.2.data.length⟩)

/-- src/lib.rs `deserialize`: crate deserialize, then the per-tensor F4
last-dimension halving. -/
def deserializeGlue (bytes : Str) : Outcome (List (Str × TensorView)) :=
  match engineDeserialize bytes with
  | .error e => .err e
  | .ok items =>
    match items.mapM deserItem with
    | none => .panicked
    | some out => .ok out

/-- Modelled from the spec: read_metadata — steps 1-3 of spec 4.5, returning
the header length and the parsed header without materializing tensor views.
Lives in the safetensors crate, not under src/. -/
def engineReadMetadata (buffer : Str) : Except SErr (Nat × HeaderMeta) :=
  if buffer.length < 8 then .error SErr.BufferTooShort
  else
    match readU64le buffer with
    | none => .error SErr.BufferTooShort
    | some (n, rest) =>
      if rest.length < n then .error SErr.BufferTooShort
      else
        match parseHeaderBytes (rest.take n) with
        | none => .error SErr.MalformedHeader
        | some hdr => .ok (n, hdr)

/-- src/lib.rs `metadata`: read the header; a missing metadata mapping
becomes an empty list, not an error. -/
def metadataGlue (bytes : Str) : Outcome (List (Str × Str)) :=
  match engineReadMetadata bytes with
  | .error e => .err e
  | .ok (_, hdr) =>
    match hdr.metadata with
    | none => .ok []
    | some m => .ok (m.map (fun kv => (kv.1, kv.2)))

/-- Serialize, then deserialize the produced buffer, propagating any panic
or error. -/
def roundTripGlue (data : List (Str × TensorView)) (meta : List (Str × Str)) :
    Outcome (List (Str × TensorView)) :=
  match serializeGlue data meta with
  | .ok buf => deserializeGlue buf
  | .err e => .err e
  | .panicked => .panicked

/-- A non-empty shape always has a defined last-dimension doubling. -/
theorem lastMul2_isSome (l : List Nat) (h : l ≠ []) : (lastMul2 l).isSome = true := by
  induction l with
  | nil => exact absurd rfl h
  | cons x xs ih =>
    cases xs with
    | nil => rfl
    | cons y t =>
      have hy := ih (List.cons_ne_nil y t)
      cases h' : lastMul2 (y :: t) with
      | none => rw [h'] at hy; simp at hy
      | some r => simp [lastMul2, h']

/-- A non-empty shape always has a defined last-dimension halving. -/
theorem lastDiv2_isSome (l : List Nat) (h : l ≠ []) : (lastDiv2 l).isSome = true := by
  induction l with
  | nil => exact absurd rfl h
  | cons x xs ih =>
    cases xs with
    | nil => rfl
    | cons y t =>
      have hy := ih (List.cons_ne_nil y t)
      cases h' : lastDiv2 (y :: t) with
      | none => rw [h'] at hy; simp at hy
      | some r => simp [lastDiv2, h']

/-- Appending a last dimension determines the last-entry evenness test. -/
theorem lastEven_append (s : List Nat) (k : Nat) : lastEven (s ++ [k]) = (k % 2 == 0) := by
  induction s with
  | nil => rfl
  | cons x xs ih =>
    cases xs with
    | nil => simpa using ih
    | cons y ys => simpa using ih

set_option maxRecDepth 10000 in
/-- C1: serializing a single F4 tensor of exposed shape [2] with one data
byte and then deserializing the produced buffer returns the tensor with
shape [1], not the original shape [2]: `prepare` computes the doubled F4
shape but inserts the original TensorView, so the header records the
logical shape, and `deserialize` still halves its last dimension. The
round-trip claim fails at this input. -/
theorem C1_f4_round_trip_shape_halved :
    roundTripGlue [([116], ⟨[2], Dtype.F4, [170], 1⟩)] [] =
      Outcome.ok [([116], ⟨[1], Dtype.F4, [170], 1⟩)] ∧
    roundTripGlue [([116], ⟨[2], Dtype.F4, [170], 1⟩)] [] ≠
      Outcome.ok [([116], ⟨[2], Dtype.F4, [170], 1⟩)] := by
  refine ⟨by decide, by decide⟩

set_option maxRecDepth 10000 in
/-- C2 counterexample: serializing two tensors both named "w" succeeds —
the output is an ok buffer, not the DuplicateTensorName error the claim
requires. -/
theorem C2_duplicate_names_serialize_succeeds :
    (serializeGlue [([119], ⟨[1], Dtype.U8, [7], 1⟩),
        ([119], ⟨[1], Dtype.U8, [9], 1⟩)] []).isOk = true ∧
    serializeGlue [([119], ⟨[1], Dtype.U8, [7], 1⟩), ([119], ⟨[1], Dtype.U8, [9], 1⟩)] [] ≠
      Outcome.err SErr.DuplicateName := by
  refine ⟨by decide, by decide⟩

/-- C2 (amended): two input tensors with the same name are silently
collapsed by the intermediate hash map — the later entry overwrites the
earlier one, and serialize behaves exactly as if only the last occurrence
had been passed; no duplicate-name error is raised. (The hypothesis rules
out the unrelated rank-0 F4 panic on the overwritten entry.) -/
theorem C2_amended_duplicates_collapse_last_wins
    (k : Str) (a b : TensorView) (rest : List (Str × TensorView))
    (meta : List (Str × Str)) (h : a.dtype.intoR = RDtype.F4 → a.shape ≠ []) :
    serializeGlue ((k, a) :: (k, b) :: rest) meta = serializeGlue ((k, b) :: rest) meta := by
  have hA : (if a.dtype.intoR = RDtype.F4 then lastMul2 a.shape else some a.shape).isSome
      = true := by
    by_cases hf : a.dtype.intoR = RDtype.F4
    · simpa [hf] using lastMul2_isSome a.shape (h hf)
    · simp [hf]
  obtain ⟨w, hw⟩ := Option.isSome_iff_exists.mp hA
  have hpre : prepare ((k, a) :: (k, b) :: rest) = prepare ((k, b) :: rest) := by
    show prepareAux [] ((k, a) :: (k, b) :: rest) = prepareAux [] ((k, b) :: rest)
    rw [prepareAux, hw]
    rw [prepareAux, prepareAux]
    have hins : insertH (insertH ([] : List (Str × TensorView)) k a) k b = insertH [] k b := by
      simp [insertH]
    rw [hins]
  unfold serializeGlue
  rw [hpre]

/-- C2 witness: the amended statement at two concrete U8 tensors named "w". -/
theorem C2_amended_duplicates_collapse_last_wins_witness :
    serializeGlue [([119], ⟨[1], Dtype.U8, [7], 1⟩), ([119], ⟨[1], Dtype.U8, [9], 1⟩)] [] =
      serializeGlue [([119], ⟨[1], Dtype.U8, [9], 1⟩)] [] :=
  C2_amended_duplicates_collapse_last_wins [119] ⟨[1], Dtype.U8, [7], 1⟩
    ⟨[1], Dtype.U8, [9], 1⟩ [] [] (fun hf => absurd hf (by decide))

/-- C3 counterexample: for the sub-byte dtype F6_E2M3 with exposed shape
[2], serialize succeeds and assigns a stored byte length of 2 — the bytes
needed for two 6-bit elements — not prod(shape[:-1]) * (k/2) = 1 as the
claim's law requires for every sub-byte dtype. -/
theorem C3_f6_stored_length_differs :
    buildHeader [([117], ⟨[2], Dtype.F6_E2M3, [3, 4], 2⟩)] none =
      Except.ok ⟨none, [([117], ⟨RDtype.F6_E2M3, [2], (0, 2)⟩)]⟩ ∧
    (serializeGlue [([117], ⟨[2], Dtype.F6_E2M3, [3, 4], 2⟩)] []).isOk = true ∧
    (2 : Nat) ≠ 1 * (2 / 2) := by
  refine ⟨by decide, by decide, by decide⟩

/-- C3 (amended): the half-byte packing law holds for the 4-bit dtype F4 —
with exposed shape [..., k] and k even the assigned stored length is
prod(shape[:-1]) * (k/2), and an odd k fails with InvalidShapeForDtype —
while the 6-bit dtypes F6_E2M3 and F6_E3M2 are instead assigned
ceil(prod(shape) * 6 / 8) bytes under the same even-last-dimension
requirement. -/
theorem C3_amended_packing_law :
    ∀ (s : List Nat) (k : Nat) (nm : Str) (tv : TensorView) (meta : List (Str × Str)),
      tv.shape = s ++ [k] →
      (tv.dtype = Dtype.F4 →
        (k % 2 = 0 →
          buildHeader [(nm, tv)] (convert_to_hashmap_string meta) =
            Except.ok ⟨convert_to_hashmap_string meta,
              [(nm, ⟨RDtype.F4, s ++ [k], (0, s.prod * (k / 2))⟩)]⟩) ∧
        (k % 2 = 1 →
          serializeGlue [(nm, tv)] meta = Outcome.err SErr.InvalidShapeForDtype)) ∧
      ((tv.dtype = Dtype.F6_E2M3 ∨ tv.dtype = Dtype.F6_E3M2) → k % 2 = 0 →
        buildHeader [(nm, tv)] (convert_to_hashmap_string meta) =
          Except.ok ⟨convert_to_hashmap_string meta,
            [(nm, ⟨tv.dtype.intoR, s ++ [k], (0, (s.prod * k * 6 + 7) / 8)⟩)]⟩) := by
  intro s k nm tv meta hs
  refine ⟨fun hd => ⟨?_, ?_⟩, ?_⟩
  · intro hk
    have hk0 : (k % 2 == 0) = true := by simpa using hk
    have hsb : storedBytes (s ++ [k]) RDtype.F4 = some (s.prod * (k / 2)) := by
      unfold storedBytes
      rw [lastEven_append, hk0]
      simp only [RDtype.subByte, RDtype.bits, List.prod_append]
      norm_num
      obtain ⟨m, rfl⟩ : ∃ m, k = 2 * m := ⟨k / 2, by omega⟩
      have h2m : 2 * m / 2 = m := by omega
      rw [h2m]
      have hc : s.prod * (2 * m) * 4 + 7 = 8 * (s.prod * m) + 7 := by ring
      rw [hc, Nat.mul_add_div (by norm_num)]
      norm_num
    simp [buildHeader, keysUnique, buildEntries, hs, hd, Dtype.intoR, hsb, Except.map]
  · intro hk
    have hsb : storedBytes (s ++ [k]) RDtype.F4 = none := by
      unfold storedBytes
      rw [lastEven_append]
      have hk0 : (k % 2 == 0) = false := by simp [hk]
      simp [RDtype.subByte, RDtype.bits, hk0]
    obtain ⟨w, hw⟩ := Option.isSome_iff_exists.mp (lastMul2_isSome (s ++ [k]) (by simp))
    have hpre : prepare [(nm, tv)] = some [(nm, tv)] := by
      simp [prepare, prepareAux, hd, hs, Dtype.intoR, hw, insertH]
    simp [serializeGlue, hpre, engineSerialize, buildHeader, keysUnique, buildEntries,
      hs, hd, Dtype.intoR, hsb, Except.map]
  · intro hd hk
    have hk0 : (k % 2 == 0) = true := by simpa using hk
    have key : ∀ d : RDtype, d.bits = 6 →
        storedBytes (s ++ [k]) d = some ((s.prod * k * 6 + 7) / 8) := by
      intro d hb
      unfold storedBytes
      rw [lastEven_append, hk0]
      simp [hb, List.prod_append]
    rcases hd with hd | hd <;>
      simp [buildHeader, keysUnique, buildEntries, hs, hd, Dtype.intoR,
        key RDtype.F6_E2M3 rfl, key RDtype.F6_E3M2 rfl, Except.map]

/-- C3 witness: the amended statement at an F4 tensor of shape [3, 2],
whose assigned stored length is 3 * (2/2) = 3 bytes. -/
theorem C3_amended_packing_law_witness :
    buildHeader [([116], ⟨[3, 2], Dtype.F4, [], 0⟩)] (convert_to_hashmap_string []) =
      Except.ok ⟨none, [([116], ⟨RDtype.F4, [3, 2], (0, 3)⟩)]⟩ := by
  have h := ((C3_amended_packing_law [3] 2 [116] ⟨[3, 2], Dtype.F4, [], 0⟩ [] rfl).1 rfl).1 rfl
  exact h.trans (by decide)

set_option maxRecDepth 4000 in
/-- C5: serializing an empty tensor list with empty metadata yields exactly
the 8-byte length prefix followed by the two header bytes of an empty
object — 10 bytes in total with an empty data segment — and deserializing
that buffer returns an empty tensor mapping. -/
theorem C5_empty_serialize_round_trip :
    serializeGlue [] [] = Outcome.ok (u64le 2 ++ [123, 125]) ∧
    (u64le 2 ++ [123, 125]).length = 8 + 2 ∧
    deserializeGlue (u64le 2 ++ [123, 125]) = Outcome.ok [] := by
  refine ⟨by decide, by decide, by decide⟩

/-- C6: the ffi Dtype declaration order is non-decreasing in element byte
alignment — whenever one dtype precedes another in the enumeration, its
alignment is at most the other's, so ordinal comparison picks a
widest-aligned dtype. -/
theorem C6_dtype_order_nondecreasing_alignment :
    ∀ d1 d2 : Dtype, d1.ordinal < d2.ordinal → d1.alignment ≤ d2.alignment := by
  decide

/-- C6 witness: the monotonicity applied to the first and last dtypes. -/
theorem C6_dtype_order_nondecreasing_alignment_witness :
    Dtype.ordinal Dtype.BOOL < Dtype.ordinal Dtype.U64 ∧
    Dtype.alignment Dtype.BOOL ≤ Dtype.alignment Dtype.U64 :=
  ⟨by decide, C6_dtype_order_nondecreasing_alignment Dtype.BOOL Dtype.U64 (by decide)⟩

/-- C7: the two hand-written conversion switches between the bridged and
canonical dtype enumerations are mutually inverse on every value, so they
form a bijection with no drift. -/
theorem C7_dtype_conversions_mutually_inverse :
    (∀ d : Dtype, (d.intoR).intoD = d) ∧ (∀ r : RDtype, (r.intoD).intoR = r) := by
  refine ⟨?_, ?_⟩ <;> intro x <;> cases x <;> rfl

/-- C7 witness: both round trips at concrete dtype values. -/
theorem C7_dtype_conversions_mutually_inverse_witness :
    (Dtype.F4.intoR).intoD = Dtype.F4 ∧ (RDtype.BF16.intoD).intoR = RDtype.BF16 :=
  ⟨C7_dtype_conversions_mutually_inverse.1 Dtype.F4,
   C7_dtype_conversions_mutually_inverse.2 RDtype.BF16⟩

/-- C8: both shape-adjustment sites index position len - 1 without a
non-emptiness check: a rank-0 F4 tensor makes serialize panic in `prepare`,
and makes the deserialize loop body's adjustment undefined, while any
tensor of rank at least 1 passes both sites without panicking — the F4
branch is safe only under that precondition. -/
theorem C8_rank0_f4_panics :
    (∀ (nm : Str) (tv : TensorView) (meta : List (Str × Str)),
       tv.dtype = Dtype.F4 → tv.shape = [] →
       serializeGlue [(nm, tv)] meta = Outcome.panicked) ∧
    (∀ kv : Str × RTensor, kv.2.dtype = RDtype.F4 → kv.2.shape = [] → deserItem kv = none) ∧
    (∀ (nm : Str) (tv : TensorView) (kv : Str × RTensor),
       tv.shape ≠ [] → kv.2.shape ≠ [] →
       prepare [(nm, tv)] ≠ none ∧ deserItem kv ≠ none) := by
  refine ⟨?_, ?_, ?_⟩
  · intro nm tv meta hd hs
    simp [serializeGlue, prepare, prepareAux, hd, hs, Dtype.intoR, lastMul2]
  · intro kv hd hs
    simp [deserItem, hd, hs, lastDiv2]
  · intro nm tv kv h1 h2
    constructor
    · have hA : (if tv.dtype.intoR = RDtype.F4 then lastMul2 tv.shape else some tv.shape).isSome
          = true := by
        by_cases hf : tv.dtype.intoR = RDtype.F4
        · simpa [hf] using lastMul2_isSome tv.shape h1
        · simp [hf]
      obtain ⟨w, hw⟩ := Option.isSome_iff_exists.mp hA
      simp [prepare, prepareAux, hw]
    · have hA : (if kv.2.dtype = RDtype.F4 then lastDiv2 kv.2.shape else some kv.2.shape).isSome
          = true := by
        by_cases hf : kv.2.dtype = RDtype.F4
        · simpa [hf] using lastDiv2_isSome kv.2.shape h2
        · simp [hf]
      obtain ⟨w, hw⟩ := Option.isSome_iff_exists.mp hA
      simp [deserItem, hw]

/-- C8 witness: the rank-0 panic on both paths and the rank-1 safety, at
concrete tensors. -/
theorem C8_rank0_f4_panics_witness :
    serializeGlue [([116], ⟨[], Dtype.F4, [], 0⟩)] [] = Outcome.panicked ∧
    deserItem ([116], ⟨[], RDtype.F4, []⟩) = none ∧
    (prepare [([117], ⟨[2], Dtype.U8, [7], 1⟩)] ≠ none ∧
     deserItem ([117], ⟨[2], RDtype.U8, [7]⟩) ≠ none) :=
  ⟨C8_rank0_f4_panics.1 [116] ⟨[], Dtype.F4, [], 0⟩ [] rfl rfl,
   C8_rank0_f4_panics.2.1 ([116], ⟨[], RDtype.F4, []⟩) rfl rfl,
   C8_rank0_f4_panics.2.2 [117] ⟨[2], Dtype.U8, [7], 1⟩ ([117], ⟨[2], RDtype.U8, [7]⟩)
     (by decide) (by decide)⟩

/-- C9: the metadata operation returns an empty mapping, not an error, when
the header has no metadata key; and an empty metadata list is converted to
`None`, so the header built by serialize carries no metadata mapping at
all. -/
theorem C9_metadata_empty_handling :
    (∀ (bytes : Str) (n : Nat) (hdr : HeaderMeta),
       engineReadMetadata bytes = Except.ok (n, hdr) → hdr.metadata = none →
       metadataGlue bytes = Outcome.ok []) ∧
    convert_to_hashmap_string [] = none ∧
    (∀ (tensors : List (Str × TensorView)) (hdr : HeaderMeta),
       buildHeader tensors (convert_to_hashmap_string []) = Except.ok hdr →
       hdr.metadata = none) := by
  refine ⟨?_, rfl, ?_⟩
  · intro bytes n hdr h1 h2
    simp [metadataGlue, h1, h2]
  · intro tensors hdr h
    rw [show convert_to_hashmap_string [] = none from rfl] at h
    unfold buildHeader at h
    by_cases hk : keysUnique tensors
    · rw [hk] at h
      simp only [Bool.not_true, Bool.false_eq_true, if_false] at h
      cases hbe : buildEntries 0 tensors with
      | error e => rw [hbe] at h; simp [Except.map] at h
      | ok es =>
        rw [hbe] at h
        simp only [Except.map] at h
        cases h
        rfl
    · simp [hk] at h

/-- C9 witness: metadata of the metadata-free empty-header buffer, and the
header built from an empty metadata list. -/
theorem C9_metadata_empty_handling_witness :
    metadataGlue (u64le 2 ++ [123, 125]) = Outcome.ok [] ∧
    HeaderMeta.metadata ⟨none, []⟩ = none :=
  ⟨C9_metadata_empty_handling.1 (u64le 2 ++ [123, 125]) 2 ⟨none, []⟩ (by decide) rfl,
   C9_metadata_empty_handling.2.2 [] ⟨none, []⟩ (by decide)⟩

/-- C10: the 6-bit dtypes receive no shape adjustment in the binding layer:
`prepare` leaves an F6 tensor entirely unchanged and the deserialize loop
body passes an F6 shape through unmodified. -/
theorem C10_f6_no_shape_adjustment :
    ∀ (nm : Str) (tv : TensorView) (kv : Str × RTensor),
      (tv.dtype = Dtype.F6_E2M3 ∨ tv.dtype = Dtype.F6_E3M2) →
      (kv.2.dtype = RDtype.F6_E2M3 ∨ kv.2.dtype = RDtype.F6_E3M2) →
      prepare [(nm, tv)] = some [(nm, tv)] ∧
      deserItem kv = some (kv.1, ⟨kv.2.shape, kv.2.dtype.intoD, kv.2.data, kv.2.data.length⟩) := by
  intro nm tv kv h1 h2
  constructor
  · rcases h1 with h | h <;> simp [prepare, prepareAux, h, Dtype.intoR, insertH]
  · rcases h2 with h | h <;> simp [deserItem, h]

/-- C10 witness: shape pass-through at concrete F6 tensors on both paths. -/
theorem C10_f6_no_shape_adjustment_witness :
    prepare [([116], ⟨[2], Dtype.F6_E2M3, [5, 6], 2⟩)] =
      some [([116], ⟨[2], Dtype.F6_E2M3, [5, 6], 2⟩)] ∧
    deserItem ([116], ⟨[2], RDtype.F6_E3M2, [5, 6]⟩) =
      some ([116], ⟨[2], Dtype.F6_E3M2, [5, 6], 2⟩) := by
  have h := C10_f6_no_shape_adjustment [116] ⟨[2], Dtype.F6_E2M3, [5, 6], 2⟩
    ([116], ⟨[2], RDtype.F6_E3M2, [5, 6]⟩) (Or.inl rfl) (Or.inr rfl)
  exact ⟨h.1, h.2.trans (by decide)⟩
